import Mathlib

/-!
Shallow embedding of the pennystocks-reddit-dashboard pipeline.

The embedding models, directly from the Python source:
 * `reddit_scrapper.py` — ticker extraction/validation
   (`extract_and_validate_tickers`), author profile resolution
   (`get_user_info`), the eligibility filter (`should_filter_comment`) and
   the per-comment record built by `get_all_thread_comments`;
 * `update_data.py` — the backup/run/restore state machine of
   `run_reddit_scraper` and `create_backup`, over an abstract two-slot
   file system (data file and its timestamped backup);
 * `app.py` — the single-flight refresh guard (`refresh_data`,
   `scheduled_scraper_job`) and the read-side aggregation
   (`load_and_process_data`).

Python strings are modelled over their character sequences (`String.data`
in Lean), so every definition is kernel-computable; external collaborators
(the `reticker` candidate scanner, the Reddit profile lookup, the scraper
subprocess outcome) enter as explicit parameters, exactly at the points
where the source calls out to them.
-/

namespace PennyStocks

/-! ### Python string primitives, modelled over character lists -/

/-- Python `str.upper()` over the character sequence (ASCII case map). -/
def upperS (s : String) : String := String.mk (s.data.map Char.toUpper)

/-- Python `str.lower()` over the character sequence (ASCII case map). -/
def lowerS (s : String) : String := String.mk (s.data.map Char.toLower)

/-- Helper for `splitOnComma`: accumulates the current field (reversed). -/
def splitOnCommaAux (cur : List Char) : List Char → List String
  | [] => [String.mk cur.reverse]
  | c :: rest =>
    if c = ',' then String.mk cur.reverse :: splitOnCommaAux [] rest
    else splitOnCommaAux (c :: cur) rest

/-- Python `str.split(',')`. -/
def splitOnComma (s : String) : List String := splitOnCommaAux [] s.data

/-- Python `str.strip()`: drop whitespace from both ends. -/
def stripS (s : String) : String :=
  String.mk (((s.data.dropWhile Char.isWhitespace).reverse.dropWhile
      Char.isWhitespace).reverse)

/-- Substring occurrence test on character lists (`needle` occurs inside
`hay`), the semantics of Python's `in` / pandas `str.contains` for a
pattern without regex metacharacters. -/
def listInfixB (needle : List Char) : List Char → Bool
  | [] => needle.isEmpty
  | c :: t => needle.isPrefixOf (c :: t) || listInfixB needle t

/-- Python `', '.join(l)` (and `''` for the empty list, matching the
`if extracted_tickers else ''` guard at the use site). -/
def joinCommaSpace : List String → String
  | [] => ""
  | [t] => t
  | t :: rest => t ++ ", " ++ joinCommaSpace rest

/-! ### reddit_scrapper.py — ticker extraction and validation -/

/-- The fixed exclusion set `self.excluded_tickers` (reddit_scrapper.py
lines 45-49), common words excluded as ticker false positives. -/
def excluded_tickers : List String :=
  ["A", "I", "GO", "ON", "IT", "BE", "DD", "CEO", "PR", "USA", "FOR",
   "NOW", "YOLO", "THE", "GAIN", "LOSS", "EPS", "PE", "BUY", "SELL",
   "HOLD", "ALL", "ARE", "CAN", "BIG", "TOP", "EOD", "PM", "AH"]

/-- The validation loop of `extract_and_validate_tickers`
(reddit_scrapper.py lines 121-130): uppercase each candidate, skip it if
it is in the exclusion list, keep it if it is in the master list. -/
def validate_candidates (valid_tickers : List String) :
    List String → List String
  | [] => []
  | t :: rest =>
    let ticker_upper := upperS t
    if excluded_tickers.contains ticker_upper then
      validate_candidates valid_tickers rest
    else if valid_tickers.contains ticker_upper then
      ticker_upper :: validate_candidates valid_tickers rest
    else
      validate_candidates valid_tickers rest

/-- The de-duplication loop of `extract_and_validate_tickers`
(reddit_scrapper.py lines 135-141): keep the first occurrence of each
ticker, tracking a `seen` set. -/
def dedup_first_seen (seen : List String) : List String → List String
  | [] => []
  | t :: rest =>
    if seen.contains t then dedup_first_seen seen rest
    else t :: dedup_first_seen (t :: seen) rest

/-- `RedditScraper.extract_and_validate_tickers` (reddit_scrapper.py
lines 89-146).  The external `reticker.TickerExtractor().extract`
candidate scanner is passed in as the function `extract`; `valid_tickers`
is the loaded catalog (empty when `tickers.json` failed to load).
`if not text: return []`; `if not self.valid_tickers:` return the raw
uppercased candidates; otherwise validate then de-duplicate. -/
def extract_and_validate_tickers (extract : String → List String)
    (valid_tickers : List String) (text : String) : List String :=
  if text = "" then []
  else
    let extracted_tickers := extract text
    if valid_tickers.isEmpty then extracted_tickers.map upperS
    else dedup_first_seen [] (validate_candidates valid_tickers extracted_tickers)

/-! ### reddit_scrapper.py — author profiles and the eligibility filter -/

/-- The dictionary returned by `get_user_info`.  The `link_karma` and
`total_karma` keys are absent from the deleted/failed-lookup dictionaries
(the record-building site reads them with `.get(key, 0)`), so they are
modelled as `Option Int`.  The `exists` key is modelled as `user_exists`. -/
structure UserInfo where
  username : String
  comment_karma : Int
  link_karma : Option Int
  total_karma : Option Int
  account_age_days : Int
  user_exists : Bool
deriving DecidableEq

/-- Outcome of the external Reddit profile lookup for a username: either
the looked-up karma/age numbers, or any exception (nonexistent user,
network failure, ...). -/
inductive LookupOutcome where
  | found (comment_karma link_karma account_age_days : Int)
  | failed
deriving DecidableEq

/-- `RedditScraper.get_user_info` (reddit_scrapper.py lines 170-215).
The `'[deleted]'` sentinel short-circuits to a non-existent profile; a
lookup exception is caught and also yields a non-existent profile; a
successful lookup fills all karma fields with
`total_karma = comment_karma + link_karma`. -/
def get_user_info (username : String) (lookup : LookupOutcome) : UserInfo :=
  if username = "[deleted]" then
    ⟨"[deleted]", 0, none, none, 0, false⟩
  else
    match lookup with
    | .found ck lk age => ⟨username, ck, some lk, some (ck + lk), age, true⟩
    | .failed => ⟨username, 0, none, none, 0, false⟩

/-- `RedditScraper.should_filter_comment` (reddit_scrapper.py lines
217-236): a comment is filtered out (dropped) when the author does not
exist, or has too little comment karma, or too young an account. -/
def should_filter_comment (min_comment_karma min_account_age_days : Int)
    (user_info : UserInfo) : Bool :=
  if user_info.user_exists = false then true
  else if user_info.comment_karma < min_comment_karma then true
  else if user_info.account_age_days < min_account_age_days then true
  else false

/-! ### reddit_scrapper.py — the per-comment record of the collector -/

/-- The raw per-comment data read off the Reddit API object inside
`get_all_thread_comments` (id, body, resolved author name, score,
timestamp, tree position). -/
structure RawComment where
  id : String
  body : String
  author : String
  score : Int
  created_utc : Int
  parent_id : String
  depth : Nat
deriving DecidableEq

/-- The `comment_data` dictionary built in `get_all_thread_comments`
(reddit_scrapper.py lines 316-336); `tickers` is the comma-and-space
joined string, `ticker_count` the length of the extracted list, karma
fields read from the profile dictionary with `.get(key, 0)` defaults. -/
structure CommentData where
  id : String
  body : String
  author : String
  score : Int
  created_utc : Int
  author_comment_karma : Int
  author_link_karma : Int
  author_total_karma : Int
  author_account_age_days : Int
  author_exists : Bool
  tickers : String
  ticker_count : Nat
deriving DecidableEq

/-- Building the `comment_data` dictionary from the raw comment, the
resolved profile, and the extracted ticker list (reddit_scrapper.py
lines 316-336). -/
def build_comment_data (c : RawComment) (user_info : UserInfo)
    (extracted_tickers : List String) : CommentData :=
  { id := c.id
    body := c.body
    author := c.author
    score := c.score
    created_utc := c.created_utc
    author_comment_karma := user_info.comment_karma
    author_link_karma := user_info.link_karma.getD 0
    author_total_karma := user_info.total_karma.getD 0
    author_account_age_days := user_info.account_age_days
    author_exists := user_info.user_exists
    tickers := joinCommaSpace extracted_tickers
    ticker_count := extracted_tickers.length }

/-- One iteration of the collector loop (reddit_scrapper.py lines
297-336) for a single comment: resolve the author profile, extract and
validate tickers from the body, and build the record. -/
def collect_comment (extract : String → List String)
    (valid_tickers : List String) (c : RawComment) (lookup : LookupOutcome) :
    CommentData :=
  build_comment_data c (get_user_info c.author lookup)
    (extract_and_validate_tickers extract valid_tickers c.body)

/-! ### update_data.py — backup / run / restore state machine

The on-disk state relevant to one run of `update_data.run_reddit_scraper`
is the data file `lounge_thread_filtered_comments.json` and the
timestamped backup created for this run; both are slots holding an
optional file content of type `α` (content equality models byte-for-byte
equality, since the only file operations are `os.rename` and a fresh
write by the scraper subprocess). -/

/-- The two file slots touched by one update run. -/
structure FS (α : Type) where
  dataFile : Option α
  backupFile : Option α
deriving DecidableEq

/-- `create_backup` (update_data.py lines 27-38): if the data file
exists, `os.rename` it to the timestamped backup name; the returned
`Bool` is whether a backup was created (the Python function returns the
backup name or `None`). -/
def create_backup {α : Type} (fs : FS α) : FS α × Bool :=
  match fs.dataFile with
  | some c => (⟨none, some c⟩, true)
  | none => (fs, false)

/-- What the `subprocess.run([sys.executable, 'reddit_scrapper.py'])`
call did: its exit status (zero / non-zero / 30-minute timeout), or an
unexpected exception escaping the `try` block; `written` is the content
the subprocess left in the data-file slot (`none` when it did not create
the file). -/
inductive ScrapeOutcome (α : Type) where
  | retZero (written : Option α)
  | retNonZero (written : Option α)
  | timedOut (written : Option α)
  | raised (written : Option α)
deriving DecidableEq

/-- Result of one run of `update_data.run_reddit_scraper`: the boolean
it returns, the `success` flag written into `data_metadata.json` by
`save_metadata`, whether a backup was created at run start, and the
final file-system state. -/
structure RunResult (α : Type) where
  success : Bool
  metaSuccess : Bool
  backupCreated : Bool
  fs : FS α
deriving DecidableEq

/-- The restore step `os.rename(backup_file, data_file)` guarded by
`if backup_file and os.path.exists(backup_file)` (update_data.py lines
120-122 and 133-135). -/
def restore_backup {α : Type} (created : Bool) (fs : FS α) : FS α :=
  match created, fs.backupFile with
  | true, some b => ⟨some b, none⟩
  | _, _ => fs

namespace UpdateData

/-- `update_data.run_reddit_scraper` (update_data.py lines 71-144):
create a backup of the existing data file, run the scraper subprocess,
then
 * exit code 0 and the data file exists: save success metadata and
   delete the backup (lines 91-108);
 * exit code 0 but no data file: save failure metadata, keep the file
   system as is (lines 109-113);
 * non-zero exit code: save failure metadata and restore the backup
   (lines 114-124);
 * `subprocess.TimeoutExpired`: save failure metadata and restore the
   backup (lines 126-137);
 * any other exception: save failure metadata only — the backup is NOT
   restored (lines 139-144). -/
def run_reddit_scraper {α : Type} (fs₀ : FS α) (outcome : ScrapeOutcome α) :
    RunResult α :=
  let bk := create_backup fs₀
  let fs₁ := bk.1
  let created := bk.2
  match outcome with
  | .retZero written =>
    let fs₂ : FS α := ⟨written, fs₁.backupFile⟩
    match written with
    | some _ =>
      let fs₃ :=
        if created && fs₂.backupFile.isSome then { fs₂ with backupFile := none }
        else fs₂
      ⟨true, true, created, fs₃⟩
    | none => ⟨false, false, created, fs₂⟩
  | .retNonZero written =>
    ⟨false, false, created, restore_backup created ⟨written, fs₁.backupFile⟩⟩
  | .timedOut written =>
    ⟨false, false, created, restore_backup created ⟨written, fs₁.backupFile⟩⟩
  | .raised written =>
    ⟨false, false, created, ⟨written, fs₁.backupFile⟩⟩

end UpdateData

/-- What `reddit_scrapper.py`'s `main` leaves in the data-file slot when
it terminates with exit code 0: it writes the corpus to
`lounge_thread_filtered_comments.json` only under
`if filtered_comments:` (reddit_scrapper.py lines 487-489), so an empty
corpus produces no file. -/
def scraper_writes (corpus : List CommentData) : Option (List CommentData) :=
  if corpus.isEmpty then none else some corpus

/-- One whole successful-subprocess update run of the pipeline: the
scraper exits 0 having written the corpus iff it is non-empty, and
`update_data.run_reddit_scraper` orchestrates backup and metadata. -/
def run_data_update (fs₀ : FS (List CommentData))
    (corpus : List CommentData) : RunResult (List CommentData) :=
  UpdateData.run_reddit_scraper fs₀ (.retZero (scraper_writes corpus))

/-! ### app.py — the single-flight refresh guard -/

/-- The global `refresh_status` record of app.py (lines 36-41), minus
the `last_refresh` display timestamp. -/
structure RefreshStatus where
  is_running : Bool
  progress : Nat
  last_error : Option String
deriving DecidableEq

/-- The orchestration state: the shared `refresh_status` record plus the
number of collection runs currently in flight on the single-worker
executor. -/
structure AppState where
  status : RefreshStatus
  runsInFlight : Nat
deriving DecidableEq

/-- The `status` field of the JSON reply of `POST /api/refresh`
(app.py lines 280-299). -/
inductive RefreshReply where
  | already_running (progress : Nat)
  | started
deriving DecidableEq

/-- Submitting `run_reddit_scraper` to the one-worker executor and the
start of that run (app.py lines 186-193 and 289): the run marks
`is_running := True`, `progress := 10`, clears `last_error`, and one more
run is in flight. -/
def start_run (s : AppState) : AppState :=
  { status := { is_running := true, progress := 10, last_error := none }
    runsInFlight := s.runsInFlight + 1 }

/-- `refresh_data`, the handler of `POST /api/refresh` (app.py lines
274-307): when `refresh_status['is_running']` it replies
`'already_running'` with the current progress and changes nothing;
otherwise it submits the run and replies `'started'`. -/
def refresh_data (s : AppState) : RefreshReply × AppState :=
  if s.status.is_running then
    (.already_running s.status.progress, s)
  else
    (.started, start_run s)

/-- `scheduled_scraper_job`, the 30-minute interval job (app.py lines
243-249): submits the run only when no run is in progress, otherwise
logs and skips. -/
def scheduled_scraper_job (s : AppState) : AppState :=
  if !s.status.is_running then start_run s else s

/-! ### app.py — read-side aggregation (`load_and_process_data`) -/

/-- Field splitting of a comment's joined ticker string (app.py line
133): `split(',')`, `strip()` each piece, keep the non-empty ones. -/
def tickerTokens (s : String) : List String :=
  ((splitOnComma s).map stripS).filter (fun t => t ≠ "")

/-- `ticker_mentions[ticker] = ticker_mentions.get(ticker, 0) + 1` over
an insertion-ordered association list (a Python dict). -/
def bump : List (String × Nat) → String → List (String × Nat)
  | [], t => [(t, 1)]
  | (k, v) :: rest, t =>
    if k = t then (k, v + 1) :: rest else (k, v) :: bump rest t

/-- The ticker-mention counting loop (app.py lines 128-135): iterate the
rows whose `tickers` field is non-empty and count each token once per
comment. -/
def ticker_mentions (df : List CommentData) : List (String × Nat) :=
  (df.filter (fun r => r.tickers ≠ "")).foldl
    (fun m row =>
      if row.tickers = "" then m else (tickerTokens row.tickers).foldl bump m)
    []

/-- Stable insertion for a descending sort: `a` goes after every already
placed element whose key is at least `key a`. -/
def insertDescBy {α : Type} (key : α → Int) (a : α) : List α → List α
  | [] => [a]
  | b :: rest =>
    if key a ≤ key b then b :: insertDescBy key a rest else a :: b :: rest

/-- Stable descending sort by an integer key, the semantics of Python's
`sorted(..., reverse=True)` / pandas `sort_values(ascending=False)` /
`nlargest` used by app.py. -/
def sortDescBy {α : Type} (key : α → Int) (l : List α) : List α :=
  l.foldl (fun acc a => insertDescBy key a acc) []

/-- `top_10_tickers` (app.py line 137). -/
def top_10_tickers (df : List CommentData) : List (String × Nat) :=
  (sortDescBy (fun p => (p.2 : Int)) (ticker_mentions df)).take 10

/-- `top_20_comments = df.nlargest(20, 'score')` (app.py line 140). -/
def top_20_comments (df : List CommentData) : List CommentData :=
  (sortDescBy (fun r => r.score) df).take 20

/-- `watchlist_comments` (app.py lines 145-150): `ticker_count >= 4` and
`author_total_karma >= 500`, sorted by score descending, first 10. -/
def watchlist_comments (df : List CommentData) : List CommentData :=
  (sortDescBy (fun r => r.score)
    (df.filter (fun r => 4 ≤ r.ticker_count && 500 ≤ r.author_total_karma))).take 10

/-- `df['tickers'].str.contains(ticker, na=False, case=False)` (app.py
line 157): case-insensitive substring containment of the query ticker in
the comma-joined ticker string. -/
def str_contains_ci (hay needle : String) : Bool :=
  listInfixB (lowerS needle).data (lowerS hay).data

/-- The row selection of the per-ticker recency feed (app.py line 157). -/
def latest_filter (df : List CommentData) (ticker : String) :
    List CommentData :=
  df.filter (fun r => str_contains_ci r.tickers ticker)

/-- The per-ticker recency feed (app.py lines 157-161): substring-matching
rows, most recent first, first 5. -/
def latest_feed (df : List CommentData) (ticker : String) :
    List CommentData :=
  (sortDescBy (fun r => r.created_utc) (latest_filter df ticker)).take 5

/-- `latest_comments_by_ticker` (app.py lines 152-161): the feed for each
of the 5 most-mentioned tickers. -/
def latest_comments_by_ticker (df : List CommentData) :
    List (String × List CommentData) :=
  ((top_10_tickers df).take 5).map (fun p => (p.1, latest_feed df p.1))

/-- `summary_stats` (app.py lines 164-169), minus the display timestamp. -/
structure SummaryStats where
  total_comments : Nat
  comments_with_tickers : Nat
  unique_tickers : Nat
deriving DecidableEq

/-- The result dictionary of `load_and_process_data` (app.py lines
172-178). -/
structure Snapshot where
  top10 : List (String × Nat)
  top20 : List CommentData
  watchlist : List CommentData
  latestByTicker : List (String × List CommentData)
  summary : SummaryStats
deriving DecidableEq

/-- Building the snapshot from a parsed non-empty comment list (app.py
lines 125-180). -/
def build_snapshot (df : List CommentData) : Snapshot :=
  { top10 := top_10_tickers df
    top20 := top_20_comments df
    watchlist := watchlist_comments df
    latestByTicker := latest_comments_by_ticker df
    summary :=
      { total_comments := df.length
        comments_with_tickers := (df.filter (fun r => r.tickers ≠ "")).length
        unique_tickers := (ticker_mentions df).length } }

/-- The state of the snapshot file as seen by the read side: absent,
present but not valid JSON (`json.load` raises), or parsed. -/
inductive LoadInput (α : Type) where
  | absent
  | unparsable
  | parsed (data : List α)
deriving DecidableEq

/-- `load_and_process_data` (app.py lines 99-184): `None` when no data
file is found; any exception (in particular a JSON parse failure) is
caught and yields `None`; `if not comments_data: return None`; otherwise
the snapshot is built. -/
def load_and_process_data (inp : LoadInput CommentData) : Option Snapshot :=
  match inp with
  | .absent => none
  | .unparsable => none
  | .parsed data => if data.isEmpty then none else some (build_snapshot data)

/-- Reply of the `/` dashboard route. -/
inductive DashResponse where
  | error_page (httpCode : Nat)
  | page (s : Snapshot)
deriving DecidableEq

/-- The `/` route (app.py lines 251-258): a `None` from
`load_and_process_data` renders the error template with HTTP 500. -/
def dashboard (inp : LoadInput CommentData) : DashResponse :=
  match load_and_process_data inp with
  | none => .error_page 500
  | some s => .page s

/-! ### Helper lemmas on the extractor -/

/-- Everything produced by the validation loop is in the master list and
outside the exclusion list. -/
theorem mem_validate_candidates {valid ex : List String} {x : String}
    (hx : x ∈ validate_candidates valid ex) :
    x ∈ valid ∧ x ∉ excluded_tickers := by
  induction ex with
  | nil => simp [validate_candidates] at hx
  | cons t rest ih =>
    simp only [validate_candidates] at hx
    split at hx
    · exact ih hx
    · next hexc =>
      split at hx
      · next hval =>
        rcases List.mem_cons.mp hx with rfl | hx'
        · exact ⟨by simpa using hval, by simpa using hexc⟩
        · exact ih hx'
      · exact ih hx

/-- Everything in the de-duplicated list came from the input and was not
already seen. -/
theorem mem_dedup_first_seen_imp {seen l : List String} {x : String}
    (h : x ∈ dedup_first_seen seen l) : x ∈ l ∧ x ∉ seen := by
  induction l generalizing seen with
  | nil => simp [dedup_first_seen] at h
  | cons t rest ih =>
    simp only [dedup_first_seen] at h
    split at h
    · rcases ih h with ⟨h1, h2⟩
      exact ⟨List.mem_cons_of_mem _ h1, h2⟩
    · next hns =>
      rcases List.mem_cons.mp h with rfl | h'
      · exact ⟨List.mem_cons_self _ _, by simpa using hns⟩
      · rcases ih h' with ⟨h1, h2⟩
        exact ⟨List.mem_cons_of_mem _ h1,
          fun hx => h2 (List.mem_cons_of_mem _ hx)⟩

/-- The de-duplication loop produces a duplicate-free list. -/
theorem nodup_dedup_first_seen (seen l : List String) :
    (dedup_first_seen seen l).Nodup := by
  induction l generalizing seen with
  | nil => simp [dedup_first_seen]
  | cons t rest ih =>
    simp only [dedup_first_seen]
    split
    · exact ih seen
    · refine List.nodup_cons.mpr ⟨?_, ih (t :: seen)⟩
      intro hmem
      exact (mem_dedup_first_seen_imp hmem).2 (List.mem_cons_self _ _)

/-- Core property of `extract_and_validate_tickers` when the catalog is
non-empty: duplicate-free output, every element in the catalog and
outside the exclusion set. -/
theorem extract_spec (extract : String → List String)
    (valid_tickers : List String) (text : String) (hv : valid_tickers ≠ []) :
    (extract_and_validate_tickers extract valid_tickers text).Nodup ∧
      ∀ x ∈ extract_and_validate_tickers extract valid_tickers text,
        x ∈ valid_tickers ∧ x ∉ excluded_tickers := by
  unfold extract_and_validate_tickers
  by_cases ht : text = ""
  · simp [ht]
  · have hvne : valid_tickers.isEmpty = false := by
      cases valid_tickers with
      | nil => exact absurd rfl hv
      | cons a l => rfl
    rw [if_neg ht]
    simp only [hvne, Bool.false_eq_true, if_false]
    refine ⟨nodup_dedup_first_seen _ _, ?_⟩
    intro x hx
    exact mem_validate_candidates (mem_dedup_first_seen_imp hx).1

/-! ### Claim C4 -/

/-- Claim C4 counterexample: with an empty (failed-to-load) catalog and
candidate tokens `["dd", "dd"]`, the extractor returns `["DD", "DD"]` —
which has a duplicate, and whose elements are not in
`catalog \\ exclusions` (the catalog is empty and `DD` is excluded).  So
the quantification over "regardless of whether the ticker catalog loaded
non-empty" is false. -/
theorem extractor_degraded_breaks_catalog_property :
    ¬ ((extract_and_validate_tickers (fun _ => ["dd", "dd"]) [] "buy dd now").Nodup ∧
        ∀ x ∈ extract_and_validate_tickers (fun _ => ["dd", "dd"]) [] "buy dd now",
          x ∈ ([] : List String) ∧ x ∉ excluded_tickers) := by
  decide

/-- Claim C4 (amended): provided the ticker catalog loaded non-empty,
for every text input the extractor's output contains no duplicates and
every element is in the catalog and outside the exclusion set.  (When the
catalog is empty the extractor instead returns the raw uppercased
candidates, unvalidated.) -/
theorem extractor_nodup_and_validated (extract : String → List String)
    (valid_tickers : List String) (text : String) (hv : valid_tickers ≠ []) :
    (extract_and_validate_tickers extract valid_tickers text).Nodup ∧
      ∀ x ∈ extract_and_validate_tickers extract valid_tickers text,
        x ∈ valid_tickers ∧ x ∉ excluded_tickers :=
  extract_spec extract valid_tickers text hv

/-- Claim C4 witness: the amended theorem applied at a concrete extractor
run with catalog `["GME"]` and candidates `["gme", "dd", "gme"]`. -/
theorem extractor_nodup_and_validated_w :
    (["GME"] : List String) ≠ [] ∧
      ((extract_and_validate_tickers (fun _ => ["gme", "dd", "gme"]) ["GME"] "x").Nodup ∧
        ∀ x ∈ extract_and_validate_tickers (fun _ => ["gme", "dd", "gme"]) ["GME"] "x",
          x ∈ (["GME"] : List String) ∧ x ∉ excluded_tickers) :=
  ⟨by decide,
    extractor_nodup_and_validated (fun _ => ["gme", "dd", "gme"]) ["GME"] "x"
      (by decide)⟩

/-! ### Claim C5 -/

/-- Claim C5 counterexample: with an empty catalog and candidate `"dd"`,
the extractor returns `["DD"]` even though `DD` is in the exclusion set —
the degraded mode does NOT apply the exclusion filter (the claim says
excluded common words are still dropped). -/
theorem degraded_mode_keeps_excluded_words :
    extract_and_validate_tickers (fun _ => ["dd"]) [] "nice dd here" = ["DD"] ∧
      "DD" ∈ excluded_tickers := by
  decide

/-- Claim C5 (amended): when the ticker catalog is empty, for every
non-empty text input the extractor returns exactly the uppercased
candidate tokens, with NO exclusion filtering (and no de-duplication);
the degraded mode is surfaced only as a logged warning. -/
theorem degraded_mode_uppercases_unfiltered (extract : String → List String)
    (text : String) (ht : text ≠ "") :
    extract_and_validate_tickers extract [] text = (extract text).map upperS := by
  unfold extract_and_validate_tickers
  rw [if_neg ht]
  rfl

/-- Claim C5 witness: the amended theorem applied at a concrete degraded
extraction. -/
theorem degraded_mode_uppercases_unfiltered_w :
    extract_and_validate_tickers (fun _ => ["abc", "dd"]) [] "t" =
      ((fun (_ : String) => ["abc", "dd"]) "t").map upperS :=
  degraded_mode_uppercases_unfiltered (fun _ => ["abc", "dd"]) "t" (by decide)

/-! ### Claim C8 -/

/-- Claim C8: a comment is dropped (filtered out) if and only if the
author does not exist, or the author's comment karma is strictly below
`min_comment_karma`, or the account age in days is strictly below
`min_account_age_days`. -/
theorem should_filter_comment_iff (min_comment_karma min_account_age_days : Int)
    (user_info : UserInfo) :
    should_filter_comment min_comment_karma min_account_age_days user_info = true ↔
      (user_info.user_exists = false ∨
        user_info.comment_karma < min_comment_karma ∨
        user_info.account_age_days < min_account_age_days) := by
  rcases user_info with ⟨un, ck, lk, tk, age, ex⟩
  cases ex <;>
    by_cases h1 : ck < min_comment_karma <;>
      by_cases h2 : age < min_account_age_days <;>
        simp [should_filter_comment, h1, h2]

/-! ### Claim C10 -/

/-- Claim C10: the keep/drop decision depends only on the three profile
fields `exists`, `comment_karma` and `account_age_days` — two profiles
that agree on those three get the same decision, whatever their username,
link karma or total karma. -/
theorem filter_decision_noninterference (mck mad : Int) (u1 u2 : UserInfo)
    (he : u1.user_exists = u2.user_exists)
    (hk : u1.comment_karma = u2.comment_karma)
    (ha : u1.account_age_days = u2.account_age_days) :
    should_filter_comment mck mad u1 = should_filter_comment mck mad u2 := by
  simp [should_filter_comment, he, hk, ha]

/-- Claim C10 witness: two profiles with the same existence, comment
karma and account age, but different usernames, link karma and total
karma, get the same decision. -/
theorem filter_decision_noninterference_w :
    should_filter_comment 100 30
        ⟨"alice", 250, some 10, some 260, 400, true⟩ =
      should_filter_comment 100 30
        ⟨"bob", 250, some 90000, some 90250, 400, true⟩ :=
  filter_decision_noninterference 100 30
    ⟨"alice", 250, some 10, some 260, 400, true⟩
    ⟨"bob", 250, some 90000, some 90250, 400, true⟩ rfl rfl rfl

/-! ### Claim C9 -/

/-- Karma bookkeeping of `get_user_info`: when the user exists the total
karma is comment plus link karma; otherwise every karma field defaults
to zero (the `link_karma`/`total_karma` keys are absent and read back
with `.get(key, 0)`). -/
theorem get_user_info_karma (username : String) (lookup : LookupOutcome) :
    ((get_user_info username lookup).user_exists = true →
        (get_user_info username lookup).total_karma.getD 0 =
          (get_user_info username lookup).comment_karma +
            (get_user_info username lookup).link_karma.getD 0) ∧
      ((get_user_info username lookup).user_exists = false →
        (get_user_info username lookup).comment_karma = 0 ∧
          (get_user_info username lookup).link_karma.getD 0 = 0 ∧
          (get_user_info username lookup).total_karma.getD 0 = 0) := by
  by_cases hd : username = "[deleted]" <;> cases lookup <;>
    simp [get_user_info, hd]

/-- A concrete raw comment used by counterexamples and witnesses. -/
def sampleRaw : RawComment :=
  { id := "c1", body := "thoughts on dd and gme", author := "alice",
    score := 3, created_utc := 1700000000, parent_id := "t3_x", depth := 0 }

/-- Claim C9 counterexample: when the catalog failed to load (empty), the
collector still builds records from the unvalidated uppercased
candidates, so a record can carry ticker list `["DD"]` — whose element is
in the exclusion set and not in the (empty) active catalog, refuting the
membership clause of the invariant. -/
theorem comment_record_invariant_fails_degraded :
    (collect_comment (fun _ => ["dd"]) [] sampleRaw (.found 5 7 100)).tickers =
        joinCommaSpace ["DD"] ∧
      (collect_comment (fun _ => ["dd"]) [] sampleRaw (.found 5 7 100)).ticker_count =
        (["DD"] : List String).length ∧
      ¬ (∀ x ∈ (["DD"] : List String),
          x ∈ ([] : List String) ∧ x ∉ excluded_tickers) := by
  decide

/-- Claim C9 (amended): provided the ticker catalog loaded non-empty,
every record built by the collector carries a duplicate-free ticker list
whose length is `ticker_count` and whose elements are in the catalog and
outside the exclusion set; and unconditionally,
`author_total_karma = author_comment_karma + author_link_karma` when the
author exists, and all three karma fields are zero when the author does
not exist. -/
theorem comment_record_invariant (extract : String → List String)
    (valid_tickers : List String) (c : RawComment) (lookup : LookupOutcome)
    (hv : valid_tickers ≠ []) :
    (∃ ts : List String,
        (collect_comment extract valid_tickers c lookup).tickers =
            joinCommaSpace ts ∧
          (collect_comment extract valid_tickers c lookup).ticker_count =
            ts.length ∧
          ts.Nodup ∧ ∀ x ∈ ts, x ∈ valid_tickers ∧ x ∉ excluded_tickers) ∧
      ((collect_comment extract valid_tickers c lookup).author_exists = true →
        (collect_comment extract valid_tickers c lookup).author_total_karma =
          (collect_comment extract valid_tickers c lookup).author_comment_karma +
            (collect_comment extract valid_tickers c lookup).author_link_karma) ∧
      ((collect_comment extract valid_tickers c lookup).author_exists = false →
        (collect_comment extract valid_tickers c lookup).author_comment_karma = 0 ∧
          (collect_comment extract valid_tickers c lookup).author_link_karma = 0 ∧
          (collect_comment extract valid_tickers c lookup).author_total_karma = 0) := by
  refine ⟨⟨extract_and_validate_tickers extract valid_tickers c.body, rfl, rfl,
      (extract_spec extract valid_tickers c.body hv).1,
      (extract_spec extract valid_tickers c.body hv).2⟩, ?_, ?_⟩
  · exact (get_user_info_karma c.author lookup).1
  · exact (get_user_info_karma c.author lookup).2

/-- Claim C9 witness: the amended invariant at a concrete collected
record (catalog `["GME"]`, candidate `"gme"`, author found with comment
karma 5 and link karma 7). -/
theorem comment_record_invariant_w :
    (∃ ts : List String,
        (collect_comment (fun _ => ["gme"]) ["GME"] sampleRaw (.found 5 7 100)).tickers =
            joinCommaSpace ts ∧
          (collect_comment (fun _ => ["gme"]) ["GME"] sampleRaw (.found 5 7 100)).ticker_count =
            ts.length ∧
          ts.Nodup ∧ ∀ x ∈ ts, x ∈ (["GME"] : List String) ∧ x ∉ excluded_tickers) ∧
      ((collect_comment (fun _ => ["gme"]) ["GME"] sampleRaw (.found 5 7 100)).author_exists = true →
        (collect_comment (fun _ => ["gme"]) ["GME"] sampleRaw (.found 5 7 100)).author_total_karma =
          (collect_comment (fun _ => ["gme"]) ["GME"] sampleRaw (.found 5 7 100)).author_comment_karma +
            (collect_comment (fun _ => ["gme"]) ["GME"] sampleRaw (.found 5 7 100)).author_link_karma) ∧
      ((collect_comment (fun _ => ["gme"]) ["GME"] sampleRaw (.found 5 7 100)).author_exists = false →
        (collect_comment (fun _ => ["gme"]) ["GME"] sampleRaw (.found 5 7 100)).author_comment_karma = 0 ∧
          (collect_comment (fun _ => ["gme"]) ["GME"] sampleRaw (.found 5 7 100)).author_link_karma = 0 ∧
          (collect_comment (fun _ => ["gme"]) ["GME"] sampleRaw (.found 5 7 100)).author_total_karma = 0) :=
  comment_record_invariant (fun _ => ["gme"]) ["GME"] sampleRaw (.found 5 7 100)
    (by decide)

/-! ### Claim C1 -/

/-- Claim C1: the single-flight guard.  Whenever `refresh_status` shows a
run in progress, the on-demand `POST /api/refresh` replies
`'already_running'` (with the current progress) and changes nothing, and
the scheduled 30-minute job is a no-op — in particular the number of
runs in flight is unchanged, so a second trigger while one run is in
flight leaves the run count at 1. -/
theorem single_flight_guard (s : AppState) (h : s.status.is_running = true) :
    (refresh_data s).1 = RefreshReply.already_running s.status.progress ∧
      (refresh_data s).2 = s ∧
      ((refresh_data s).2).runsInFlight = s.runsInFlight ∧
      scheduled_scraper_job s = s := by
  simp [refresh_data, scheduled_scraper_job, h]

/-- Claim C1 witness: the guard at the concrete state "running, progress
42, one run in flight". -/
theorem single_flight_guard_w :
    (refresh_data ⟨⟨true, 42, none⟩, 1⟩).1 = RefreshReply.already_running 42 ∧
      (refresh_data ⟨⟨true, 42, none⟩, 1⟩).2 = ⟨⟨true, 42, none⟩, 1⟩ ∧
      ((refresh_data ⟨⟨true, 42, none⟩, 1⟩).2).runsInFlight = 1 ∧
      scheduled_scraper_job ⟨⟨true, 42, none⟩, 1⟩ = ⟨⟨true, 42, none⟩, 1⟩ :=
  single_flight_guard ⟨⟨true, 42, none⟩, 1⟩ rfl

/-! ### Claim C2 -/

/-- Claim C2 counterexample: a run that created a backup of the prior
snapshot `[1, 2, 3]` and then failed with an unexpected exception ends
with the data file NOT restored (the `except Exception` branch of
`update_data.run_reddit_scraper` saves failure metadata but never renames
the backup back), refuting "restored ... for any reason ... before the
run ends". -/
theorem backup_not_restored_on_exception :
    (UpdateData.run_reddit_scraper (⟨some [1, 2, 3], none⟩ : FS (List Nat))
          (.raised none)).backupCreated = true ∧
      (UpdateData.run_reddit_scraper (⟨some [1, 2, 3], none⟩ : FS (List Nat))
          (.raised none)).success = false ∧
      (UpdateData.run_reddit_scraper (⟨some [1, 2, 3], none⟩ : FS (List Nat))
          (.raised none)).fs.dataFile ≠ some [1, 2, 3] := by
  decide

/-- Claim C2 (amended): for every run starting from a snapshot file whose
content is `content`, if the run fails with a non-zero scraper exit code
or with the 30-minute timeout, the original snapshot is restored
byte-for-byte at the original path before the run ends; the unexpected
exception branch does NOT restore it. -/
theorem backup_restored_on_retcode_and_timeout {α : Type} (fs₀ : FS α)
    (content : α) (written : Option α) (h : fs₀.dataFile = some content) :
    ((UpdateData.run_reddit_scraper fs₀ (.retNonZero written)).fs.dataFile =
          some content ∧
        (UpdateData.run_reddit_scraper fs₀ (.retNonZero written)).success = false) ∧
      ((UpdateData.run_reddit_scraper fs₀ (.timedOut written)).fs.dataFile =
          some content ∧
        (UpdateData.run_reddit_scraper fs₀ (.timedOut written)).success = false) := by
  rcases fs₀ with ⟨df, bf⟩
  cases h
  exact ⟨⟨rfl, rfl⟩, ⟨rfl, rfl⟩⟩

/-- Claim C2 witness: restore on failure and on timeout from the concrete
prior snapshot `7`. -/
theorem backup_restored_on_retcode_and_timeout_w :
    ((UpdateData.run_reddit_scraper (⟨some 7, none⟩ : FS Nat)
          (.retNonZero none)).fs.dataFile = some 7 ∧
        (UpdateData.run_reddit_scraper (⟨some 7, none⟩ : FS Nat)
          (.retNonZero none)).success = false) ∧
      ((UpdateData.run_reddit_scraper (⟨some 7, none⟩ : FS Nat)
          (.timedOut none)).fs.dataFile = some 7 ∧
        (UpdateData.run_reddit_scraper (⟨some 7, none⟩ : FS Nat)
          (.timedOut none)).success = false) :=
  backup_restored_on_retcode_and_timeout (⟨some 7, none⟩ : FS Nat) 7 none rfl

/-! ### Claim C3 -/

/-- A concrete kept comment record used by counterexamples and
witnesses. -/
def sampleComment : CommentData :=
  { id := "c1", body := "b", author := "alice", score := 3,
    created_utc := 1700000000, author_comment_karma := 250,
    author_link_karma := 10, author_total_karma := 260,
    author_account_age_days := 400, author_exists := true,
    tickers := "GME", ticker_count := 1 }

/-- Claim C3 counterexample: a run over prior snapshot `[sampleComment]`
whose corpus comes out empty ends as a failure with a failure metadata
record — but the backup is NOT restored over the target path: the scraper
writes no file, `update_data` takes its "data file was not created"
branch, which neither renames the backup back nor deletes it, so the
target path is left empty while the claim requires the backup to be
restored over it. -/
theorem empty_corpus_backup_not_renamed_back :
    (run_data_update ⟨some [sampleComment], none⟩ []).success = false ∧
      (run_data_update ⟨some [sampleComment], none⟩ []).metaSuccess = false ∧
      (run_data_update ⟨some [sampleComment], none⟩ []).fs.dataFile = none ∧
      (run_data_update ⟨some [sampleComment], none⟩ []).fs.backupFile =
        some [sampleComment] := by
  exact ⟨rfl, rfl, rfl, rfl⟩

/-- Claim C3 (amended): the backup is deleted only when the run completed
successfully, which (because the scraper writes the snapshot file only
for a non-empty corpus) requires a non-empty corpus; a run whose corpus
is empty is treated as a failure with a failure metadata record and the
backup retained at its backup path — but the target path is left absent,
the backup is not renamed back over it.  A successful run writes the
corpus to the target path and deletes the backup. -/
theorem backup_deleted_only_on_success (fs₀ : FS (List CommentData))
    (corpus : List CommentData) (hb : fs₀.backupFile = none) :
    ((run_data_update fs₀ corpus).backupCreated = true →
        (run_data_update fs₀ corpus).fs.backupFile = none →
        (run_data_update fs₀ corpus).success = true ∧ corpus ≠ []) ∧
      (corpus = [] →
        (run_data_update fs₀ corpus).success = false ∧
          (run_data_update fs₀ corpus).metaSuccess = false ∧
          (run_data_update fs₀ corpus).fs.dataFile = none ∧
          (run_data_update fs₀ corpus).fs.backupFile = fs₀.dataFile) ∧
      ((run_data_update fs₀ corpus).success = true →
        corpus ≠ [] ∧
          (run_data_update fs₀ corpus).fs.dataFile = some corpus ∧
          (run_data_update fs₀ corpus).fs.backupFile = none) := by
  rcases fs₀ with ⟨df, bf⟩
  cases hb
  cases df <;> rcases corpus with _ | ⟨c, cs⟩ <;>
    simp [run_data_update, UpdateData.run_reddit_scraper, scraper_writes,
      create_backup, restore_backup]

/-- Claim C3 witness: a successful run over prior snapshot
`[sampleComment]` with the non-empty corpus `[sampleComment]` writes the
corpus to the target path and deletes the backup. -/
theorem backup_deleted_only_on_success_w :
    ([sampleComment] : List CommentData) ≠ [] ∧
      (run_data_update ⟨some [sampleComment], none⟩ [sampleComment]).fs.dataFile =
        some [sampleComment] ∧
      (run_data_update ⟨some [sampleComment], none⟩ [sampleComment]).fs.backupFile =
        none :=
  (backup_deleted_only_on_success ⟨some [sampleComment], none⟩ [sampleComment]
    rfl).2.2 rfl

/-! ### Sorting membership lemmas for the aggregation -/

/-- Membership through the stable descending insertion. -/
theorem mem_insertDescBy {α : Type} (key : α → Int) (a x : α) (l : List α) :
    x ∈ insertDescBy key a l ↔ x = a ∨ x ∈ l := by
  induction l with
  | nil => simp [insertDescBy]
  | cons b rest ih =>
    simp only [insertDescBy]
    split
    · simp only [List.mem_cons, ih]
      tauto
    · simp [List.mem_cons]

/-- Membership through the fold of stable descending insertions. -/
theorem mem_sortDescBy_aux {α : Type} (key : α → Int) (l acc : List α) (x : α) :
    x ∈ l.foldl (fun acc a => insertDescBy key a acc) acc ↔
      x ∈ acc ∨ x ∈ l := by
  induction l generalizing acc with
  | nil => simp
  | cons a rest ih =>
    simp only [List.foldl_cons]
    rw [ih]
    simp only [mem_insertDescBy, List.mem_cons]
    tauto

/-- The stable descending sort is a permutation membership-wise. -/
theorem mem_sortDescBy {α : Type} (key : α → Int) (l : List α) (x : α) :
    x ∈ sortDescBy key l ↔ x ∈ l := by
  rw [sortDescBy, mem_sortDescBy_aux]
  simp

/-! ### Claim C6 -/

/-- A concrete comment record tagged only with ticker `ABCD`. -/
def abcdComment : CommentData :=
  { id := "c9", body := "ABCD to the moon", author := "carol", score := 5,
    created_utc := 1700000100, author_comment_karma := 900,
    author_link_karma := 100, author_total_karma := 1000,
    author_account_age_days := 900, author_exists := true,
    tickers := "ABCD", ticker_count := 1 }

/-- Exact-token membership of a query ticker in the comma-joined ticker
list of a comment.  Modelled from the spec: "t is one of the comment's
ticker tokens (an element of its comma-joined ticker list)" — the
matching semantics the claim asserts; the source (app.py line 157) uses
substring containment instead. -/
def token_match (rowTickers ticker : String) : Bool :=
  (tickerTokens rowTickers).contains ticker

/-- Claim C6 counterexample: the comment tagged only with `ABCD` IS
included in the `latestByTicker` feed for the query ticker `ABC`
(pandas `str.contains` substring semantics), although `ABC` is not one
of its ticker tokens — refuting the exact-token "if and only if". -/
theorem substring_match_false_positive :
    abcdComment ∈ latest_feed [abcdComment] "ABC" ∧
      token_match abcdComment.tickers "ABC" = false := by
  decide

/-- Claim C6 (amended): `latestByTicker` matching uses case-insensitive
substring containment against the comma-joined ticker list: a comment is
selected for query ticker `t` iff `t` occurs (case-insensitively) as a
substring of its `tickers` string, and every feed entry satisfies that
substring match; in particular a comment tagged only with `ABCD` IS
matched by the query ticker `ABC`. -/
theorem latest_filter_substring_semantics :
    (∀ (df : List CommentData) (ticker : String) (c : CommentData),
        (c ∈ latest_filter df ticker ↔
          c ∈ df ∧ str_contains_ci c.tickers ticker = true) ∧
        (c ∈ latest_feed df ticker →
          c ∈ df ∧ str_contains_ci c.tickers ticker = true)) ∧
      str_contains_ci "ABCD" "ABC" = true := by
  refine ⟨fun df ticker c => ⟨List.mem_filter, fun hc => ?_⟩, by decide⟩
  have h1 : c ∈ sortDescBy (fun r => r.created_utc) (latest_filter df ticker) :=
    List.take_subset _ _ hc
  have h2 : c ∈ latest_filter df ticker :=
    (mem_sortDescBy (fun r => r.created_utc) (latest_filter df ticker) c).mp h1
  exact List.mem_filter.mp h2

/-- Claim C6 witness: the amended semantics applied to the concrete feed
of the `ABCD`-tagged comment for query `ABC`. -/
theorem latest_filter_substring_semantics_w :
    abcdComment ∈ [abcdComment] ∧
      str_contains_ci abcdComment.tickers "ABC" = true :=
  (latest_filter_substring_semantics.1 [abcdComment] "ABC" abcdComment).2
    (by decide)

/-! ### Claim C7 -/

/-- Claim C7 counterexample: on an empty corpus — and likewise on an
absent or unparsable snapshot file — `load_and_process_data` returns
`None`, not a well-defined snapshot with zero counts and empty lists
(no `avgScore` field exists anywhere in the result). -/
theorem empty_corpus_yields_none :
    load_and_process_data (LoadInput.parsed ([] : List CommentData)) = none ∧
      load_and_process_data (LoadInput.absent : LoadInput CommentData) = none ∧
      load_and_process_data (LoadInput.unparsable : LoadInput CommentData) =
        none :=
  ⟨rfl, rfl, rfl⟩

/-- Claim C7 (amended): `load_and_process_data` returns the no-data
sentinel `None` exactly when the snapshot file is absent, unparsable, or
parses to an empty corpus; the dashboard route turns that sentinel into
an explicit error page with HTTP 500 (no crash, but also no zero-count
snapshot, and no `avgScore` is computed). -/
theorem load_none_iff_no_data (inp : LoadInput CommentData) :
    (load_and_process_data inp = none ↔
        inp = LoadInput.absent ∨ inp = LoadInput.unparsable ∨
          inp = LoadInput.parsed []) ∧
      (load_and_process_data inp = none →
        dashboard inp = DashResponse.error_page 500) := by
  constructor
  · cases inp with
    | absent => simp [load_and_process_data]
    | unparsable => simp [load_and_process_data]
    | parsed data =>
      cases data with
      | nil => simp [load_and_process_data]
      | cons a l => simp [load_and_process_data]
  · intro h
    simp [dashboard, h]

/-- Claim C7 witness: the empty corpus is routed to the HTTP 500 error
page. -/
theorem load_none_iff_no_data_w :
    dashboard (LoadInput.parsed ([] : List CommentData)) =
      DashResponse.error_page 500 :=
  (load_none_iff_no_data (LoadInput.parsed [])).2 rfl

end PennyStocks
